import Mathlib

/- Shallow embedding of src/ollama_ibm_strands.py: the configuration constants,
   the create_model / create_agent constructors, and the process_prompt
   request/response pipeline, together with theorems about them. -/

namespace OllamaIbmStrands

/-- Configuration constant OLLAMA_HOST from the source. -/
def OLLAMA_HOST : String := "http://localhost:11434"

/-- Configuration constant MODEL_ID from the source. -/
def MODEL_ID : String := "ibm/granite4:small-h"

/-- Configuration constant TEMPERATURE from the source: the float 0.5,
which is exactly representable, modelled as the rational 1/2. -/
def TEMPERATURE : ℚ := 1/2

/-- The two pre-built tools the source imports from strands_tools and hands
to the Agent constructor, in the order they appear in the tools list. -/
inductive Tool where
  | current_time
  | calculator
deriving DecidableEq

/-- The Ollama model client configuration object built by create_model. -/
structure OllamaModel where
  host : String
  model_id : String
  temperature : ℚ
deriving DecidableEq

/-- The agent object built by create_agent: one model client and one tool list. -/
structure Agent where
  model : OllamaModel
  tools : List Tool
deriving DecidableEq

/-- Embedding of create_model: builds the model client from the three constants. -/
def create_model : OllamaModel :=
  { host := OLLAMA_HOST, model_id := MODEL_ID, temperature := TEMPERATURE }

/-- Embedding of create_agent: wraps the given model with the fixed tool pair. -/
def create_agent (model : OllamaModel) : Agent :=
  { model := model, tools := [Tool.current_time, Tool.calculator] }

/-- One content segment of an agent message, modelled as a Python dict with
string keys and string payloads; subscripting is association-list lookup and a
missing key raises KeyError. -/
structure ContentBlock where
  fields : List (String × String)
deriving DecidableEq

/-- Dict access on a content segment: some payload, or none for a missing key. -/
def ContentBlock.get (b : ContentBlock) (key : String) : Option String :=
  b.fields.lookup key

/-- The message dict of a truthy response. A none content field models a dict
without a content key, so that subscripting it with content raises KeyError. -/
structure Message where
  content : Option (List ContentBlock)
deriving DecidableEq

/-- A truthy response object returned by the agent call. A none message models
a falsy message attribute (Python None or the empty dict). -/
structure Response where
  message : Option Message
deriving DecidableEq

/-- Outcome of calling the agent on a prompt: a returned value, where none
models a falsy response, or a raised exception carrying its message string. -/
inductive Outcome where
  | ok (response : Option Response)
  | raised (msg : String)
deriving DecidableEq

/-- One record emitted through the logger: the formatted message and whether
exc_info (the stack trace) was attached. -/
structure LogEntry where
  message : String
  exc_info : Bool
deriving DecidableEq

/-- Embedding of process_prompt. The agent is its behaviour on prompts, a
function from the prompt string to an Outcome. The result is the returned
display string paired with the list of records logged during the call.
Mirrors the source line by line: a raised exception is caught by the outer
handler, logged with exc_info, and stringified; a falsy response or falsy
message returns the fixed no-response string; otherwise the inner try returns
message content 0 text, and KeyError or IndexError on that chain returns the
fixed invalid-format string. -/
def process_prompt (prompt : String) (agent : String → Outcome) :
    String × List LogEntry :=
  match agent prompt with
  | Outcome.raised e =>
      ("Error: " ++ e,
       [{ message := "Error processing prompt: " ++ e, exc_info := true }])
  | Outcome.ok none =>
      ("Error: No response received from agent", [])
  | Outcome.ok (some r) =>
      match r.message with
      | none => ("Error: No response received from agent", [])
      | some m =>
          match m.content with
          | none => ("Error: Invalid response format", [])
          | some [] => ("Error: Invalid response format", [])
          | some (b :: _) =>
              match b.get "text" with
              | none => ("Error: Invalid response format", [])
              | some t => (t, [])

/-- C1: for every truthy response with a truthy message whose content sequence
is non-empty and whose first segment is text-kind and carries a text payload,
process_prompt returns that payload verbatim. -/
theorem c1_first_text_verbatim
    (prompt : String) (agent : String → Outcome)
    (b : ContentBlock) (rest : List ContentBlock) (t : String)
    (hres : agent prompt = Outcome.ok (some ⟨some ⟨some (b :: rest)⟩⟩))
    (hkind : b.get "kind" = some "text")
    (htext : b.get "text" = some t) :
    (process_prompt prompt agent).fst = t := by
  simp [process_prompt, hres, htext]

/-- C1 witness: a stub agent answering the 2+2 prompt with content
containing the single segment of kind text and text 4 yields exactly 4. -/
theorem c1_first_text_verbatim_witness :
    (process_prompt "What is 2+2?"
      (fun _ => Outcome.ok
        (some ⟨some ⟨some [⟨[("kind", "text"), ("text", "4")]⟩]⟩⟩))).fst = "4" :=
  c1_first_text_verbatim _ _ _ _ _ rfl rfl rfl

/-- C2 counterexample: a truthy response whose message is missing (falsy)
yields the fixed no-response string, not the invalid-format placeholder the
claim states, so the two degenerate shapes do not share one placeholder. -/
theorem c2_missing_message_counterexample :
    (process_prompt "anything"
      (fun _ => Outcome.ok (some ⟨none⟩))).fst ≠ "Error: Invalid response format" := by
  decide

/-- C2 amended: an empty content sequence yields exactly the fixed string
Error: Invalid response format, while a missing (falsy) message yields the
distinct fixed string Error: No response received from agent; both paths
return normally and never raise. -/
theorem c2_degenerate_paths
    (prompt : String) (agent : String → Outcome) :
    (agent prompt = Outcome.ok (some ⟨some ⟨some []⟩⟩) →
      (process_prompt prompt agent).fst = "Error: Invalid response format") ∧
    (agent prompt = Outcome.ok (some ⟨none⟩) →
      (process_prompt prompt agent).fst = "Error: No response received from agent") := by
  constructor <;> intro h <;> simp [process_prompt, h]

/-- C2 amended witness: a stub returning an empty content sequence yields the
invalid-format placeholder, and a stub with a falsy message yields the
no-response string. -/
theorem c2_degenerate_paths_witness :
    (process_prompt "anything"
      (fun _ => Outcome.ok (some ⟨some ⟨some []⟩⟩))).fst = "Error: Invalid response format" ∧
    (process_prompt "anything"
      (fun _ => Outcome.ok (some ⟨none⟩))).fst = "Error: No response received from agent" :=
  ⟨(c2_degenerate_paths "anything" _).1 rfl, (c2_degenerate_paths "anything" _).2 rfl⟩

/-- C3: every exception raised by the agent call is caught, never re-raised,
and turned into the string Error: followed by the failure message, so the
result begins with Error: for every such failure. -/
theorem c3_raised_gives_error_string
    (prompt : String) (agent : String → Outcome) (e : String)
    (h : agent prompt = Outcome.raised e) :
    (process_prompt prompt agent).fst = "Error: " ++ e ∧
    ∃ rest, (process_prompt prompt agent).fst = "Error: " ++ rest := by
  refine ⟨by simp [process_prompt, h], e, by simp [process_prompt, h]⟩

/-- C3 witness: a stub agent raising a connection error message yields the
Error: prefixed form of that exact message. -/
theorem c3_raised_gives_error_string_witness :
    (process_prompt "anything"
      (fun _ => Outcome.raised "Connection refused")).fst = "Error: Connection refused" :=
  (c3_raised_gives_error_string "anything" _ "Connection refused" rfl).1

/-- C4: for every prompt and every agent outcome, process_prompt returns
exactly one display string and it is one of the defined shapes: the extracted
first-segment text, one of the two fixed degenerate strings, or Error:
followed by the message of the exception the agent raised; no outcome is
left without a result and nothing escapes the boundary. -/
theorem c4_total_one_display (prompt : String) (agent : String → Outcome) :
    ∃ s : String, (process_prompt prompt agent).fst = s ∧
      (s = "Error: No response received from agent" ∨
       s = "Error: Invalid response format" ∨
       (∃ e, agent prompt = Outcome.raised e ∧ s = "Error: " ++ e) ∨
       (∃ r m b rest t, agent prompt = Outcome.ok (some r) ∧
         r.message = some m ∧ m.content = some (b :: rest) ∧
         b.get "text" = some t ∧ s = t)) := by
  rcases hout : agent prompt with resp | e
  · rcases resp with _ | r
    · exact ⟨_, by simp [process_prompt, hout], Or.inl rfl⟩
    · rcases hm : r.message with _ | m
      · exact ⟨_, by simp [process_prompt, hout, hm], Or.inl rfl⟩
      · rcases hc : m.content with _ | blocks
        · exact ⟨_, by simp [process_prompt, hout, hm, hc], Or.inr (Or.inl rfl)⟩
        · rcases blocks with _ | ⟨b, rest⟩
          · exact ⟨_, by simp [process_prompt, hout, hm, hc], Or.inr (Or.inl rfl)⟩
          · rcases ht : b.get "text" with _ | t
            · exact ⟨_, by simp [process_prompt, hout, hm, hc, ht],
                Or.inr (Or.inl rfl)⟩
            · exact ⟨t, by simp [process_prompt, hout, hm, hc, ht],
                Or.inr (Or.inr (Or.inr ⟨r, m, b, rest, t, rfl, hm, hc, ht, rfl⟩))⟩
  · exact ⟨_, by simp [process_prompt, hout], Or.inr (Or.inr (Or.inl ⟨e, rfl, rfl⟩))⟩

/-- C5: the prompt reaches the agent verbatim with no pre-validation and no
modification: an instrumented agent that raises its received prompt back
produces Error: followed by the original prompt unchanged, for every prompt
including the empty string; and the empty prompt is not rejected
pre-emptively: a stub that answers it has its answer returned. -/
theorem c5_forward_unmodified :
    (∀ prompt : String,
      (process_prompt prompt (fun p => Outcome.raised p)).fst = "Error: " ++ prompt) ∧
    (∀ t : String,
      (process_prompt ""
        (fun _ => Outcome.ok (some ⟨some ⟨some [⟨[("text", t)]⟩]⟩⟩))).fst = t) := by
  constructor
  · intro prompt
    simp [process_prompt]
  · intro t
    simp [process_prompt, ContentBlock.get, List.lookup]

/-- C6 counterexample: a degenerate response (empty content sequence) is a
pipeline failure downgraded to the invalid-format placeholder, yet the log
emitted by the call is empty, so not every failure is logged. -/
theorem c6_degenerate_not_logged :
    (process_prompt "anything"
      (fun _ => Outcome.ok (some ⟨some ⟨some []⟩⟩))).fst = "Error: Invalid response format" ∧
    (process_prompt "anything"
      (fun _ => Outcome.ok (some ⟨some ⟨some []⟩⟩))).snd = [] := by
  decide

/-- C6 amended: exactly the exceptions raised by the agent call are logged,
with the formatted message and exc_info stack detail attached, before being
downgraded to the user-facing string; every returned response, including the
degenerate shapes, produces no log record. -/
theorem c6_logging_amended (prompt : String) (agent : String → Outcome) :
    (∀ e, agent prompt = Outcome.raised e →
      (process_prompt prompt agent).snd =
        [{ message := "Error processing prompt: " ++ e, exc_info := true }]) ∧
    (∀ r, agent prompt = Outcome.ok r → (process_prompt prompt agent).snd = []) := by
  constructor
  · intro e h
    simp [process_prompt, h]
  · intro r h
    rcases r with _ | r
    · simp [process_prompt, h]
    · rcases hm : r.message with _ | m
      · simp [process_prompt, h, hm]
      · rcases hc : m.content with _ | blocks
        · simp [process_prompt, h, hm, hc]
        · rcases blocks with _ | ⟨b, rest⟩
          · simp [process_prompt, h, hm, hc]
          · rcases ht : b.get "text" with _ | t <;>
              simp [process_prompt, h, hm, hc, ht]

/-- C6 amended witness: a stub raising a timeout logs exactly one record with
exc_info, and a stub returning a falsy response logs nothing. -/
theorem c6_logging_amended_witness :
    (process_prompt "anything" (fun _ => Outcome.raised "timeout")).snd =
      [{ message := "Error processing prompt: timeout", exc_info := true }] ∧
    (process_prompt "anything" (fun _ => Outcome.ok none)).snd = [] :=
  ⟨(c6_logging_amended "anything" _).1 "timeout" rfl,
   (c6_logging_amended "anything" _).2 none rfl⟩

/-- C7: the model client is built with the fixed host, model identifier and
temperature 0.5, the temperature lies in the range 0 to 1, the agent built
from it keeps that client unchanged, and its tool list is exactly the ordered
pair of current_time then calculator; all values are fixed at construction. -/
theorem c7_fixed_configuration :
    create_model.host = "http://localhost:11434" ∧
    create_model.model_id = "ibm/granite4:small-h" ∧
    create_model.temperature = 1/2 ∧
    0 ≤ create_model.temperature ∧
    create_model.temperature ≤ 1 ∧
    (create_agent create_model).model = create_model ∧
    (create_agent create_model).tools = [Tool.current_time, Tool.calculator] := by
  refine ⟨rfl, rfl, rfl, ?_, ?_, rfl, rfl⟩ <;>
    norm_num [create_model, TEMPERATURE]

/-- C8: two runs of the pipeline on the same prompt against backends that
behave identically (a deterministic stub) yield the same display result and
the same log, so the pipeline itself introduces no nondeterminism. -/
theorem c8_two_run_determinism
    (prompt : String) (run1 run2 : String → Outcome)
    (h : ∀ q, run1 q = run2 q) :
    process_prompt prompt run1 = process_prompt prompt run2 := by
  simp [process_prompt, h prompt]

/-- C8 witness: two runs against the same deterministic stub agree. -/
theorem c8_two_run_determinism_witness :
    process_prompt "What is 2+2?"
        (fun _ => Outcome.ok (some ⟨some ⟨some [⟨[("text", "4")]⟩]⟩⟩)) =
      process_prompt "What is 2+2?"
        (fun _ => Outcome.ok (some ⟨some ⟨some [⟨[("text", "4")]⟩]⟩⟩)) :=
  c8_two_run_determinism "What is 2+2?" _ _ (fun _ => rfl)

/-- C9: a falsy response, and a truthy response with a falsy message, both
return the fixed string Error: No response received from agent, a third
terminal outcome distinct from the invalid-format placeholder. -/
theorem c9_no_response_third_outcome
    (prompt : String) (agent : String → Outcome) :
    (agent prompt = Outcome.ok none →
      (process_prompt prompt agent).fst = "Error: No response received from agent") ∧
    (agent prompt = Outcome.ok (some ⟨none⟩) →
      (process_prompt prompt agent).fst = "Error: No response received from agent") ∧
    "Error: No response received from agent" ≠ "Error: Invalid response format" := by
  refine ⟨fun h => by simp [process_prompt, h],
          fun h => by simp [process_prompt, h], by decide⟩

/-- C9 witness: a stub returning a falsy response yields the no-response
string. -/
theorem c9_no_response_third_outcome_witness :
    (process_prompt "anything"
      (fun _ => Outcome.ok none)).fst = "Error: No response received from agent" :=
  (c9_no_response_third_outcome "anything" _).1 rfl

/-- C10: the extractor never inspects the kind tag and consumes only index 0:
if the first segment carries a text field its value is returned whatever the
declared kind, and if the first segment lacks a text field the invalid-format
placeholder is returned even when a later segment is a text segment. -/
theorem c10_kind_ignored_only_first
    (prompt : String) (agent : String → Outcome)
    (b : ContentBlock) (rest : List ContentBlock) :
    (∀ t, agent prompt = Outcome.ok (some ⟨some ⟨some (b :: rest)⟩⟩) →
      b.get "text" = some t → (process_prompt prompt agent).fst = t) ∧
    (agent prompt = Outcome.ok (some ⟨some ⟨some (b :: rest)⟩⟩) →
      b.get "text" = none →
      (process_prompt prompt agent).fst = "Error: Invalid response format") := by
  constructor
  · intro t h ht
    simp [process_prompt, h, ht]
  · intro h ht
    simp [process_prompt, h, ht]

/-- C10 witness: a first segment of kind image with a text field has its text
returned, and a first segment without a text field yields the invalid-format
placeholder even though the second segment is a text segment. -/
theorem c10_kind_ignored_only_first_witness :
    (process_prompt "p"
      (fun _ => Outcome.ok
        (some ⟨some ⟨some [⟨[("kind", "image"), ("text", "payload")]⟩]⟩⟩))).fst
      = "payload" ∧
    (process_prompt "p"
      (fun _ => Outcome.ok
        (some ⟨some ⟨some [⟨[("kind", "toolUse")]⟩,
          ⟨[("kind", "text"), ("text", "later")]⟩]⟩⟩))).fst
      = "Error: Invalid response format" :=
  ⟨(c10_kind_ignored_only_first "p" _ _ _).1 "payload" rfl rfl,
   (c10_kind_ignored_only_first "p" _ _ _).2 rfl rfl⟩

end OllamaIbmStrands
